import Mathlib

/-!
Shallow embedding of the core Order/Reputation Engine of the
`322_groupL_CCTExpress` Django application (files `restaurant/models.py`,
`restaurant/views.py`, `restaurant/signals.py`, `restaurant/admin.py`,
`restaurant/management/commands/update_employee_status.py`).

Money amounts are modelled as exact rationals (Python `Decimal` arithmetic on
the operations used here — addition, subtraction, multiplication by `0.05` —
is exact at the default 28-digit context for the magnitudes involved).
Python integers become `Int`; Django `PositiveIntegerField` counters are kept
as `Int` so that source expressions such as `max(0, order_count - 1)` can be
transcribed literally.
-/

/-- Customer row (`restaurant/models.py`, class `Customer`): prepaid deposit,
warning counter, lifetime spend, order count and the VIP/blacklist flags. -/
structure Customer where
  deposit : ℚ
  warnings : ℤ
  total_spent : ℚ
  order_count : ℤ
  is_vip : Bool
  is_blacklisted : Bool
deriving DecidableEq

/-- Order status choices (`Order.STATUS_CHOICES` in `models.py`). -/
inductive OrderStatus
  | pending
  | confirmed
  | ready
  | out_for_delivery
  | delivered
  | cancelled
deriving DecidableEq

/-- Dish row, restricted to the fields `create_order` reads: price, the
VIP-only flag and availability (`models.py`, class `Dish`). -/
structure Dish where
  price : ℚ
  is_vip_only : Bool
  is_available : Bool
deriving DecidableEq

/-- One line of an order request, as decoded from the JSON body of
`create_order`: a dish reference and a (possibly invalid) quantity. -/
structure ItemReq where
  dish : Dish
  quantity : ℤ
deriving DecidableEq

/-- Persisted `OrderItem` row: dish, quantity and the unit price snapshotted
at order time (`models.py`, class `OrderItem`). -/
structure OrderItem where
  dish : Dish
  quantity : ℤ
  price : ℚ
deriving DecidableEq

/-- Persisted `Order` row, restricted to the fields the core logic touches.
`vip_discount` has Django default `0.00`; `delivery_person` is nullable. -/
structure Order where
  status : OrderStatus
  total_amount : ℚ
  vip_discount : ℚ
  delivery_person : Option ℕ
  items : List OrderItem
deriving DecidableEq

/-- Complaint status choices (`Complaint.STATUS_CHOICES` in `models.py`). -/
inductive ComplaintStatus
  | pending
  | investigating
  | resolved
  | dismissed
deriving DecidableEq

/-- Compliment status choices (`Compliment.STATUS_CHOICES` in `models.py`). -/
inductive ComplimentStatus
  | pending
  | approved
  | dismissed
deriving DecidableEq

/-- Sum of `item.price * item.quantity` over the collected order items,
mirroring the running `total_amount` accumulation in `create_order`. -/
def itemsSubtotal (items : List OrderItem) : ℚ :=
  (items.map (fun i => i.price * (i.quantity : ℚ))).sum

/-- Errors `create_order` can return before or instead of persisting an
order; `insufficientFunds` carries the reported `required_amount` and
`available_deposit` of the JSON error payload. -/
inductive CreateErr
  | noItems
  | invalidQuantity
  | dishUnavailable
  | vipRequired
  | insufficientFunds (required available : ℚ)
  | addressNotFound
deriving DecidableEq

/-- Outcome of a `create_order` call: the post-call customer row, the
post-call order table, and on success the freshly persisted order. -/
inductive CreateResult
  | err (e : CreateErr) (customer : Customer) (orders : List Order)
  | ok (customer : Customer) (orders : List Order) (order : Order)
deriving DecidableEq

/-- Post-call customer row of a `create_order` outcome. -/
def CreateResult.customer : CreateResult → Customer
  | .err _ c _ => c
  | .ok c _ _ => c

/-- Post-call order table of a `create_order` outcome. -/
def CreateResult.orders : CreateResult → List Order
  | .err _ _ os => os
  | .ok _ os _ => os

/-- The per-item loop of `create_order` (`views.py`): reject non-positive
quantities, unavailable dishes and VIP-only dishes for non-VIP customers,
otherwise snapshot the dish price into an order item. -/
def collectItems (isVip : Bool) : List ItemReq → Except CreateErr (List OrderItem)
  | [] => .ok []
  | r :: rest =>
      if r.quantity ≤ 0 then .error .invalidQuantity
      else if ¬ r.dish.is_available then .error .dishUnavailable
      else if r.dish.is_vip_only ∧ ¬ isVip then .error .vipRequired
      else
        match collectItems isVip rest with
        | .error e => .error e
        | .ok tail => .ok ({ dish := r.dish, quantity := r.quantity, price := r.dish.price } :: tail)

/-- Number of complaints filed by a customer that sit in status `pending` or
`investigating` (the `unresolved_complaints` count of `signals.py`). -/
def countUnresolvedComplaints (l : List ComplaintStatus) : ℕ :=
  l.countP (fun s => s = .pending ∨ s = .investigating)

/-- The `post_save` receiver `update_customer_vip_status` of `signals.py`:
fires only when an Order is created already in status `delivered`, and then
upgrades a non-VIP customer who meets the spend/count threshold and has no
unresolved complaint filed by them. `myComplaints` are the statuses of the
complaints whose `complainant` is this customer. -/
def update_customer_vip_status (created : Bool) (status : OrderStatus)
    (myComplaints : List ComplaintStatus) (c : Customer) : Customer :=
  if created ∧ status = .delivered then
    if ¬ c.is_vip then
      if 100 ≤ c.total_spent ∨ 3 ≤ c.order_count then
        if countUnresolvedComplaints myComplaints = 0 then
          { c with is_vip := true }
        else c
      else c
    else c
  else c

/-- `Customer.check_vip_status` of `models.py`: sets `is_vip` whenever
`total_spent >= 100 or order_count >= 3`, with no complaint check. -/
def check_vip_status (c : Customer) : Customer :=
  if 100 ≤ c.total_spent ∨ 3 ≤ c.order_count then { c with is_vip := true } else c

/-- The `create_order` view of `views.py`. Parameters beyond the customer
row: the current order table, the decoded item requests, the statuses of the
complaints filed by this customer (read only by the post-save signal), and a
flag telling whether an explicitly supplied `address_id` failed to resolve
(the only address outcome that aborts the call). The body mirrors the
source: empty-cart check, per-item validation, 5% VIP discount
(`total_amount * Decimal(0.05)`, unrounded), funds check with warning on
failure, address resolution, then order persistence (note that
`Order.objects.create` is not passed `vip_discount`, which therefore keeps
its Django default `0.00`), ledger updates and `check_vip_status`. -/
def create_order (c : Customer) (orders : List Order) (reqs : List ItemReq)
    (myComplaints : List ComplaintStatus) (addressLookupFails : Bool) : CreateResult :=
  if reqs.isEmpty then .err .noItems c orders
  else
    match collectItems c.is_vip reqs with
    | .error e => .err e c orders
    | .ok items =>
        let subtotal := itemsSubtotal items
        let discount := if c.is_vip then subtotal * (5 / 100) else 0
        let total := subtotal - discount
        if total > c.deposit then
          .err (.insufficientFunds total c.deposit) { c with warnings := c.warnings + 1 } orders
        else if addressLookupFails then .err .addressNotFound c orders
        else
          let o : Order := { status := .pending, total_amount := total, vip_discount := 0,
                             delivery_person := none, items := items }
          let c1 := update_customer_vip_status true o.status myComplaints c
          let c2 := { c1 with deposit := c1.deposit - total,
                              total_spent := c1.total_spent + total,
                              order_count := c1.order_count + 1 }
          .ok (check_vip_status c2) (orders ++ [o]) o

/-- Outcome of a `cancel_order` call; both constructors carry the post-call
customer and order rows (unchanged on the `invalidTransition` branch). -/
inductive CancelResult
  | invalidTransition (current : OrderStatus) (customer : Customer) (order : Order)
  | ok (customer : Customer) (order : Order)
deriving DecidableEq

/-- Post-call customer row of a `cancel_order` outcome. -/
def CancelResult.customer : CancelResult → Customer
  | .invalidTransition _ c _ => c
  | .ok c _ => c

/-- Post-call order row of a `cancel_order` outcome. -/
def CancelResult.order : CancelResult → Order
  | .invalidTransition _ _ o => o
  | .ok _ o => o

/-- The `cancel_order` view of `views.py`: only pending orders may be
cancelled (any other status is reported back unchanged); on success the
deposit is credited with `order.total_amount`, `order_count` becomes
`max(0, order_count - 1)` and the order status becomes `cancelled`. -/
def cancel_order (c : Customer) (o : Order) : CancelResult :=
  if o.status ≠ .pending then .invalidTransition o.status c o
  else
    .ok { c with deposit := c.deposit + o.total_amount,
                 order_count := max 0 (c.order_count - 1) }
        { o with status := .cancelled }

/-- The `add_deposit` view of `views.py`: amounts `<= 0` are rejected with
no state change (`none`); otherwise the deposit is credited. -/
def add_deposit (c : Customer) (amount : ℚ) : Option Customer :=
  if amount ≤ 0 then none
  else some { c with deposit := c.deposit + amount }

/-- The `post_save` receiver `handle_customer_warnings` of `signals.py`.
It fires only when a Complaint record is created already in status
`resolved`, and it mutates the complaint's `complainant` (the filing
customer): blacklist at `warnings >= 3`, checked first; otherwise a VIP with
`warnings >= 2` is downgraded and the warnings reset to `0`. -/
def handle_customer_warnings (created : Bool) (status : ComplaintStatus)
    (complainant : Customer) : Customer :=
  if created ∧ status = .resolved then
    if 3 ≤ complainant.warnings then
      { complainant with is_blacklisted := true }
    else if complainant.is_vip ∧ 2 ≤ complainant.warnings then
      { complainant with is_vip := false, warnings := 0 }
    else complainant
  else complainant

/-- Effect of saving a Complaint on the pair (complainant, target customer):
the receiver in `signals.py` reads and writes only `instance.complainant`,
so the target customer row is returned unchanged. -/
def complaint_post_save (created : Bool) (status : ComplaintStatus)
    (complainant target : Customer) : Customer × Customer :=
  (handle_customer_warnings created status complainant, target)

/-- Employee row shared by `Chef` and `DeliveryPerson` (`models.py`): both
carry salary, demotion/bonus counters and the active/terminated flags. -/
structure Employee where
  salary : ℚ
  demotion_count : ℤ
  bonus_count : ℤ
  is_active : Bool
  is_terminated : Bool
deriving DecidableEq

/-- Count of complaints against an employee with status `resolved`
(`Complaint.objects.filter(..., status='resolved').count()`). -/
def countResolved (l : List ComplaintStatus) : ℤ :=
  (l.countP (fun s => s = .resolved) : ℤ)

/-- Count of compliments for an employee with status `approved`
(`Compliment.objects.filter(..., status='approved').count()`). -/
def countApproved (l : List ComplimentStatus) : ℤ :=
  (l.countP (fun s => s = .approved) : ℤ)

/-- Average of the ratings associated to an employee, `0` when there are
none (`aggregate(avg=Avg('rating'))['avg'] or 0`). -/
def avgRating (ratings : List ℤ) : ℚ :=
  if ratings.isEmpty then 0 else (ratings.sum : ℚ) / (ratings.length : ℚ)

/-- One per-employee step of the batch sweep in
`management/commands/update_employee_status.py` (identical for chefs in
`update_chefs` and couriers in `update_delivery_persons`):
`net_complaints = max(0, resolved - approved)`; if `net >= 3 or avg < 2`
increment `demotion_count` and, if the incremented count reaches `2`, set
`is_active = False`; else if `approved >= 3 or avg > 4` increment
`bonus_count`. The command never writes `is_terminated`. -/
def evaluate_employee (e : Employee) (complaints : List ComplaintStatus)
    (compliments : List ComplimentStatus) (ratings : List ℤ) : Employee :=
  let complaints_count := countResolved complaints
  let compliments_count := countApproved compliments
  let avg_rating := avgRating ratings
  let net_complaints := max 0 (complaints_count - compliments_count)
  if 3 ≤ net_complaints ∨ avg_rating < 2 then
    let e1 := { e with demotion_count := e.demotion_count + 1 }
    if 2 ≤ e1.demotion_count then { e1 with is_active := false } else e1
  else if 3 ≤ compliments_count ∨ 4 < avg_rating then
    { e with bonus_count := e.bonus_count + 1 }
  else e

/-- DeliveryBid row (`models.py`, class `DeliveryBid`): bidding courier,
amount, creation time, selection flag and the manager justification text.
Couriers are identified by a numeric id; `created_at` is an abstract
timestamp. -/
structure Bid where
  delivery_person : ℕ
  bid_amount : ℚ
  created_at : ℕ
  is_selected : Bool
  justification : String
deriving DecidableEq

/-- Strict key order used by `order_by('bid_amount', 'created_at')`:
`a` sorts strictly before `b`. -/
def bidBefore (a b : Bid) : Prop :=
  a.bid_amount < b.bid_amount ∨ (a.bid_amount = b.bid_amount ∧ a.created_at < b.created_at)

instance (a b : Bid) : Decidable (bidBefore a b) := by
  unfold bidBefore; infer_instance

/-- Reflexive key order on bids: `a` does not sort after `b`. -/
def bidKeyLE (a b : Bid) : Prop :=
  a.bid_amount < b.bid_amount ∨ (a.bid_amount = b.bid_amount ∧ a.created_at ≤ b.created_at)

/-- First element of the list sorted by `('bid_amount', 'created_at')`:
the earliest element attaining the lexicographic minimum of the key. -/
def lowestBid : List Bid → Option Bid
  | [] => none
  | b :: rest =>
      match lowestBid rest with
      | none => some b
      | some m => if bidBefore m b then some m else some b

/-- Justification text written by the auto-selection admin action. -/
def autoSelectJustification : String := "Automatically selected as lowest bid"

/-- Mark the first occurrence of the winning row as selected and store the
system-generated justification, leaving every other row untouched. -/
def markFirstSelected (w : Bid) : List Bid → List Bid
  | [] => []
  | b :: rest =>
      if b = w then
        { b with is_selected := true, justification := autoSelectJustification } :: rest
      else b :: markFirstSelected w rest

/-- The `auto_select_lowest_bid` admin action of `admin.py`, applied to the
full set of bids of one order: if any bid exists, first deselect them all
(`order_bids.update(is_selected=False)`), then take the first row of
`order_by('bid_amount', 'created_at')` and mark it selected with the
system justification. The Order row is never written: in particular
`order.delivery_person` is left as it was. -/
def auto_select_lowest_bid (bids : List Bid) (order : Order) : List Bid × Order :=
  if bids.isEmpty then (bids, order)
  else
    let cleared := bids.map (fun b => { b with is_selected := false })
    match lowestBid cleared with
    | none => (cleared, order)
    | some w => (markFirstSelected w cleared, order)

/-- The `get_or_create` + amount-update upsert at the heart of
`bid_on_delivery` (`views.py`): if this courier already has a bid row on the
order, overwrite its amount; otherwise append a fresh row with the Django
defaults `is_selected=False`, empty justification. -/
def upsertBid (courier : ℕ) (amount : ℚ) (now : ℕ) : List Bid → List Bid
  | [] => [{ delivery_person := courier, bid_amount := amount, created_at := now,
             is_selected := false, justification := "" }]
  | b :: rest =>
      if b.delivery_person = courier then { b with bid_amount := amount } :: rest
      else b :: upsertBid courier amount now rest

/-- The `bid_on_delivery` view of `views.py`, for the bid table of a single
order: non-positive amounts are rejected, the order must be in status
`confirmed`, the courier must be active; then the bid is upserted keyed by
(courier, order). `none` models the JSON error responses (no state change). -/
def bid_on_delivery (courierActive : Bool) (courier : ℕ) (orderStatus : OrderStatus)
    (amount : ℚ) (now : ℕ) (bids : List Bid) : Option (List Bid) :=
  if amount ≤ 0 then none
  else if orderStatus ≠ .confirmed then none
  else if ¬ courierActive then none
  else some (upsertBid courier amount now bids)

/-- Modelled from the spec: `round(x, 2)` as used in the specified discount
formula `round(subtotal * 0.05, 2)`. Python `round` on `Decimal` uses
banker's rounding (round half to even) at two decimal places. The source
`create_order` contains no such rounding; this definition exists only to
state the claimed formula for comparison. -/
def round2 (q : ℚ) : ℚ :=
  let s := q * 100
  let f : ℤ := ⌊s⌋
  let r := s - (f : ℚ)
  let n : ℤ :=
    if r < 1 / 2 then f
    else if 1 / 2 < r then f + 1
    else if f % 2 = 0 then f else f + 1
  (n : ℚ) / 100

/-- Concrete customer of the spec's insufficient-funds example: deposit 50,
regular tier, clean record. -/
def regCustomer : Customer :=
  { deposit := 50, warnings := 0, total_spent := 0, order_count := 0,
    is_vip := false, is_blacklisted := false }

/-- Available non-VIP dish priced 30. -/
def dish30 : Dish := { price := 30, is_vip_only := false, is_available := true }

/-- Request for two units of `dish30`, totalling 60. -/
def reqs60 : List ItemReq := [{ dish := dish30, quantity := 2 }]

/-- Customer row after the rejected order: one warning added. -/
def c2post : Customer := { regCustomer with warnings := 1 }

/-- Pending order of amount 60 with no items recorded. -/
def pendingOrder60 : Order :=
  { status := .pending, total_amount := 60, vip_discount := 0,
    delivery_person := none, items := [] }

/-- Confirmed order of amount 60, used for the invalid-transition cases. -/
def confirmedOrder60 : Order := { pendingOrder60 with status := .confirmed }

/-- VIP customer with deposit 200, used for the discount-field analysis. -/
def vipCustomer : Customer :=
  { deposit := 200, warnings := 0, total_spent := 0, order_count := 0,
    is_vip := true, is_blacklisted := false }

/-- Available non-VIP dish priced 100. -/
def dish100 : Dish := { price := 100, is_vip_only := false, is_available := true }

/-- Request for one unit of `dish100`, subtotal 100. -/
def reqs100 : List ItemReq := [{ dish := dish100, quantity := 1 }]

/-- Order row actually persisted for `vipCustomer` ordering `reqs100`:
total 95 (discount already subtracted), `vip_discount` left at 0. -/
def c1order : Order :=
  { status := .pending, total_amount := 95, vip_discount := 0,
    delivery_person := none,
    items := [{ dish := dish100, quantity := 1, price := 100 }] }

/-- Customer row after the VIP order: 200 - 95 = 105 on deposit. -/
def c1postCustomer : Customer :=
  { vipCustomer with deposit := 105, total_spent := 95, order_count := 1 }

/-- Regular customer at the spend threshold with an unresolved complaint
pending: total_spent 100, order_count 0, not VIP. -/
def c5customer : Customer :=
  { deposit := 200, warnings := 0, total_spent := 100, order_count := 0,
    is_vip := false, is_blacklisted := false }

/-- Available non-VIP dish priced 10. -/
def dish10 : Dish := { price := 10, is_vip_only := false, is_available := true }

/-- Request for one unit of `dish10`. -/
def reqs10 : List ItemReq := [{ dish := dish10, quantity := 1 }]

/-- Order row persisted for `c5customer` ordering `reqs10`. -/
def c5order : Order :=
  { status := .pending, total_amount := 10, vip_discount := 0,
    delivery_person := none,
    items := [{ dish := dish10, quantity := 1, price := 10 }] }

/-- Customer row after the order: upgraded to VIP by `check_vip_status`
despite the pending complaint. -/
def c5postCustomer : Customer :=
  { c5customer with deposit := 190, total_spent := 110, order_count := 1, is_vip := true }

/-- Target of a resolved complaint: three warnings, not yet blacklisted. -/
def c6target : Customer :=
  { deposit := 0, warnings := 3, total_spent := 0, order_count := 0,
    is_vip := false, is_blacklisted := false }

/-- Filer of that complaint: clean record. -/
def c6filer : Customer :=
  { deposit := 0, warnings := 0, total_spent := 0, order_count := 0,
    is_vip := false, is_blacklisted := false }

/-- VIP filer with two warnings, used for the downgrade witness. -/
def c6vipFiler : Customer :=
  { deposit := 0, warnings := 2, total_spent := 0, order_count := 0,
    is_vip := true, is_blacklisted := false }

/-- Active employee that has already been demoted once. -/
def e7employee : Employee :=
  { salary := 3000, demotion_count := 1, bonus_count := 0,
    is_active := true, is_terminated := false }

/-- Bid of courier 1: amount 12, earliest timestamp, currently selected. -/
def c8bid1 : Bid :=
  { delivery_person := 1, bid_amount := 12, created_at := 0,
    is_selected := true, justification := "" }

/-- Bid of courier 2: amount 9.50 placed at time 1. -/
def c8bid2 : Bid :=
  { delivery_person := 2, bid_amount := 19 / 2, created_at := 1,
    is_selected := false, justification := "" }

/-- Bid of courier 3: amount 9.50 placed at time 2. -/
def c8bid3 : Bid :=
  { delivery_person := 3, bid_amount := 19 / 2, created_at := 2,
    is_selected := false, justification := "" }

/-- The three bids `{12.00, 9.50, 9.50}` of the tie-breaking example. -/
def c8bids : List Bid := [c8bid1, c8bid2, c8bid3]

/-- Confirmed order awaiting courier assignment. -/
def c8order : Order :=
  { status := .confirmed, total_amount := 30, vip_discount := 0,
    delivery_person := none, items := [] }

theorem check_vip_status_ledger_fields (c : Customer) :
    (check_vip_status c).deposit = c.deposit ∧
    (check_vip_status c).total_spent = c.total_spent ∧
    (check_vip_status c).order_count = c.order_count ∧
    (check_vip_status c).warnings = c.warnings ∧
    (check_vip_status c).is_blacklisted = c.is_blacklisted := by
  unfold check_vip_status
  split <;> simp

theorem update_customer_vip_status_ledger_fields (created : Bool) (st : OrderStatus)
    (cs : List ComplaintStatus) (c : Customer) :
    (update_customer_vip_status created st cs c).deposit = c.deposit ∧
    (update_customer_vip_status created st cs c).total_spent = c.total_spent ∧
    (update_customer_vip_status created st cs c).order_count = c.order_count ∧
    (update_customer_vip_status created st cs c).warnings = c.warnings ∧
    (update_customer_vip_status created st cs c).is_blacklisted = c.is_blacklisted := by
  unfold update_customer_vip_status
  repeat' split
  all_goals simp

theorem update_customer_vip_status_pending (cs : List ComplaintStatus) (c : Customer) :
    update_customer_vip_status true .pending cs c = c := by
  unfold update_customer_vip_status
  simp


theorem collectItems_error_shape (v : Bool) (l : List ItemReq) (e : CreateErr)
    (h : collectItems v l = .error e) :
    e = .invalidQuantity ∨ e = .dishUnavailable ∨ e = .vipRequired := by
  induction l with
  | nil => simp [collectItems] at h
  | cons r rest ih =>
      unfold collectItems at h
      split at h
      · cases h; exact Or.inl rfl
      · split at h
        · cases h; exact Or.inr (Or.inl rfl)
        · split at h
          · cases h; exact Or.inr (Or.inr rfl)
          · split at h
            · rename_i heq
              cases h
              exact ih heq
            · cases h

/-- C2: when the discounted total exceeds the deposit, `create_order`
returns `InsufficientFunds` reporting the required amount and the available
deposit, increments `warnings` by exactly one, creates no order row, and
leaves deposit, total_spent and order_count unchanged. -/
theorem c2_insufficient_funds (c : Customer) (orders : List Order) (reqs : List ItemReq)
    (cs : List ComplaintStatus) (af : Bool) (req avail : ℚ) (c' : Customer) (os' : List Order)
    (h : create_order c orders reqs cs af = .err (.insufficientFunds req avail) c' os') :
    c'.warnings = c.warnings + 1 ∧ c'.deposit = c.deposit ∧
    c'.total_spent = c.total_spent ∧ c'.order_count = c.order_count ∧
    c'.is_vip = c.is_vip ∧ c'.is_blacklisted = c.is_blacklisted ∧
    os' = orders ∧ avail = c.deposit ∧ req > c.deposit := by
  unfold create_order at h
  split at h
  · cases h
  · split at h
    · rename_i e heq
      cases h
      rcases collectItems_error_shape _ _ _ heq with h1 | h1 | h1 <;> cases h1
    · simp only [] at h
      repeat' split at h
      all_goals cases h
      all_goals exact ⟨rfl, rfl, rfl, rfl, rfl, rfl, rfl, rfl, by assumption⟩

theorem c2_insufficient_funds_witness :
    c2post.warnings = regCustomer.warnings + 1 ∧ c2post.deposit = regCustomer.deposit ∧
    c2post.total_spent = regCustomer.total_spent ∧ c2post.order_count = regCustomer.order_count ∧
    c2post.is_vip = regCustomer.is_vip ∧ c2post.is_blacklisted = regCustomer.is_blacklisted ∧
    ([] : List Order) = [] ∧ (50 : ℚ) = regCustomer.deposit ∧ (60 : ℚ) > regCustomer.deposit :=
  c2_insufficient_funds regCustomer [] reqs60 [] false 60 50 c2post []
    (by simp [create_order, collectItems, itemsSubtotal, regCustomer, reqs60, dish30, c2post]
        norm_num)

theorem check_vip_status_deposit (c : Customer) :
    (check_vip_status c).deposit = c.deposit :=
  (check_vip_status_ledger_fields c).1

/-- C1 counterexample: a VIP customer with deposit 200 ordering a 100-priced
dish gets a persisted order with `total_amount = 95` (discount already
subtracted) but `vip_discount = 0`, so neither `totalAmount = subtotal -
vipDiscount` nor `vipDiscount = round(subtotal * 0.05, 2)` holds for the
persisted row. -/
theorem c1_counterexample :
    create_order vipCustomer [] reqs100 [] false = .ok c1postCustomer [c1order] c1order ∧
    c1order.vip_discount ≠ round2 (itemsSubtotal c1order.items * (5 / 100)) ∧
    c1order.total_amount ≠ itemsSubtotal c1order.items - c1order.vip_discount := by
  refine ⟨?_, ?_, ?_⟩
  · simp [create_order, collectItems, itemsSubtotal, vipCustomer, reqs100, dish100,
          c1postCustomer, c1order, check_vip_status, update_customer_vip_status]
    norm_num
  · simp [c1order, round2, itemsSubtotal, dish100]
    norm_num
  · simp [c1order, itemsSubtotal, dish100]

/-- C1 amended: every order persisted by `create_order` has
`vip_discount = 0` (the field is never written at creation), status
`pending`, and `total_amount` equal to the item subtotal minus the exact,
unrounded discount `subtotal * 0.05` applied only when the customer was VIP
at creation time; the order table grows by exactly this one row. -/
theorem c1_amended_discount_fields (c : Customer) (orders : List Order) (reqs : List ItemReq)
    (cs : List ComplaintStatus) (af : Bool) (c' : Customer) (os' : List Order) (o : Order)
    (h : create_order c orders reqs cs af = .ok c' os' o) :
    o.vip_discount = 0 ∧ o.status = .pending ∧
    o.total_amount =
      itemsSubtotal o.items - (if c.is_vip = true then itemsSubtotal o.items * (5 / 100) else 0) ∧
    os' = orders ++ [o] := by
  unfold create_order at h
  split at h
  · cases h
  · split at h
    · cases h
    · simp only [] at h
      repeat' split at h
      all_goals cases h
      all_goals refine ⟨rfl, rfl, ?_, rfl⟩
      all_goals simp_all

theorem c1_amended_discount_fields_witness :
    c1order.vip_discount = 0 ∧ c1order.status = .pending ∧
    c1order.total_amount =
      itemsSubtotal c1order.items -
        (if vipCustomer.is_vip = true then itemsSubtotal c1order.items * (5 / 100) else 0) ∧
    [c1order] = [] ++ [c1order] :=
  c1_amended_discount_fields vipCustomer [] reqs100 [] false c1postCustomer [c1order] c1order
    (by simp [create_order, collectItems, itemsSubtotal, vipCustomer, reqs100, dish100,
              c1postCustomer, c1order, check_vip_status, update_customer_vip_status]
        norm_num)

/-- C3: starting from a non-negative deposit, the deposit stays non-negative
after any `create_order` outcome, after any `cancel_order` outcome on an
order with non-negative total (every order priced from a catalog of
non-negative prices), and after any `add_deposit` outcome. -/
theorem c3_deposit_invariant (c : Customer) (orders : List Order) (reqs : List ItemReq)
    (cs : List ComplaintStatus) (af : Bool) (o : Order) (amount : ℚ)
    (hdep : 0 ≤ c.deposit) (hord : 0 ≤ o.total_amount) :
    0 ≤ (create_order c orders reqs cs af).customer.deposit ∧
    0 ≤ (cancel_order c o).customer.deposit ∧
    0 ≤ ((add_deposit c amount).getD c).deposit := by
  refine ⟨?_, ?_, ?_⟩
  · unfold create_order
    split
    · exact hdep
    · split
      · exact hdep
      · simp only []
        repeat' split
        all_goals
          first
            | exact hdep
            | (rename_i hfunds haf
               simp only [CreateResult.customer, check_vip_status_deposit,
                          update_customer_vip_status_pending]
               have hle := not_lt.mp hfunds
               linarith)
  · unfold cancel_order
    split
    · exact hdep
    · simp only [CancelResult.customer]
      linarith
  · unfold add_deposit
    split
    · simpa using hdep
    · rename_i hpos
      push_neg at hpos
      simp only [Option.getD]
      linarith

theorem c3_deposit_invariant_witness :
    0 ≤ regCustomer.deposit ∧ 0 ≤ pendingOrder60.total_amount ∧
    (0 ≤ (create_order regCustomer [] reqs60 [] false).customer.deposit ∧
     0 ≤ (cancel_order regCustomer pendingOrder60).customer.deposit ∧
     0 ≤ ((add_deposit regCustomer 25).getD regCustomer).deposit) :=
  ⟨by norm_num [regCustomer], by norm_num [pendingOrder60],
   c3_deposit_invariant regCustomer [] reqs60 [] false pendingOrder60 25
     (by norm_num [regCustomer]) (by norm_num [pendingOrder60])⟩

/-- C4: `cancel_order` rejects any non-pending order with an invalid
transition naming the current status and leaves customer and order rows
unchanged; on a pending order it credits the deposit with exactly
`total_amount`, floors `order_count - 1` at zero and sets the status to
`cancelled`. -/
theorem c4_cancel_only_pending (c : Customer) (o : Order) :
    (o.status ≠ .pending → cancel_order c o = .invalidTransition o.status c o) ∧
    (o.status = .pending →
      cancel_order c o =
        .ok { c with deposit := c.deposit + o.total_amount,
                     order_count := max 0 (c.order_count - 1) }
            { o with status := .cancelled }) := by
  constructor
  · intro hne
    unfold cancel_order
    simp [hne]
  · intro he
    unfold cancel_order
    simp [he]

theorem c4_cancel_only_pending_witness :
    cancel_order regCustomer confirmedOrder60 =
      .invalidTransition confirmedOrder60.status regCustomer confirmedOrder60 ∧
    cancel_order regCustomer pendingOrder60 =
      .ok { regCustomer with deposit := regCustomer.deposit + pendingOrder60.total_amount,
                             order_count := max 0 (regCustomer.order_count - 1) }
          { pendingOrder60 with status := .cancelled } :=
  ⟨(c4_cancel_only_pending regCustomer confirmedOrder60).1
      (by simp [confirmedOrder60, pendingOrder60]),
   (c4_cancel_only_pending regCustomer pendingOrder60).2 (by simp [pendingOrder60])⟩

/-- C10: a successful cancellation never touches `total_spent` (nor the
warning, VIP or blacklist fields), so a cancelled order's amount keeps
counting toward the `total_spent >= 100` VIP-eligibility threshold. -/
theorem c10_cancel_preserves_total_spent (c : Customer) (o : Order)
    (h : o.status = .pending) :
    (cancel_order c o).customer.total_spent = c.total_spent ∧
    (cancel_order c o).customer.warnings = c.warnings ∧
    (cancel_order c o).customer.is_vip = c.is_vip ∧
    (cancel_order c o).customer.is_blacklisted = c.is_blacklisted ∧
    (100 ≤ c.total_spent → 100 ≤ (cancel_order c o).customer.total_spent) := by
  unfold cancel_order
  simp [h, CancelResult.customer]

theorem c10_cancel_preserves_total_spent_witness :
    (cancel_order c5customer c5order).customer.total_spent = c5customer.total_spent ∧
    (cancel_order c5customer c5order).customer.warnings = c5customer.warnings ∧
    (cancel_order c5customer c5order).customer.is_vip = c5customer.is_vip ∧
    (cancel_order c5customer c5order).customer.is_blacklisted = c5customer.is_blacklisted ∧
    (100 ≤ c5customer.total_spent → 100 ≤ (cancel_order c5customer c5order).customer.total_spent) :=
  c10_cancel_preserves_total_spent c5customer c5order (by simp [c5order])

/-- C5 counterexample: a regular customer at the spend threshold with a
pending complaint they filed is nevertheless upgraded to VIP by a
successful `create_order`, because the upgrade path goes through
`check_vip_status`, which never looks at complaints. -/
theorem c5_counterexample :
    countUnresolvedComplaints [.pending] = 1 ∧
    c5customer.is_vip = false ∧
    create_order c5customer [] reqs10 [.pending] false = .ok c5postCustomer [c5order] c5order ∧
    c5postCustomer.is_vip = true := by
  refine ⟨by decide, rfl, ?_, rfl⟩
  simp [create_order, collectItems, itemsSubtotal, c5customer, reqs10, dish10,
        c5postCustomer, c5order, check_vip_status, update_customer_vip_status,
        countUnresolvedComplaints]
  norm_num

/-- C5 amended: the upgrade applied on the order-creation path
(`check_vip_status`) requires only `total_spent >= 100` or
`order_count >= 3` and ignores complaints entirely; the complaint-gated
upgrade exists only in the `update_customer_vip_status` signal, which can
fire only for an order created already in status `delivered` and does
require zero unresolved complaints. -/
theorem c5_amended_vip_upgrade_rules (c : Customer) (cs : List ComplaintStatus)
    (created : Bool) (st : OrderStatus) :
    ((check_vip_status c).is_vip = true ↔
      (c.is_vip = true ∨ 100 ≤ c.total_spent ∨ 3 ≤ c.order_count)) ∧
    (c.is_vip = false → (update_customer_vip_status created st cs c).is_vip = true →
      created = true ∧ st = .delivered ∧ (100 ≤ c.total_spent ∨ 3 ≤ c.order_count) ∧
      countUnresolvedComplaints cs = 0) := by
  constructor
  · unfold check_vip_status
    split <;> simp_all
  · intro hnv hup
    unfold update_customer_vip_status at hup
    repeat' split at hup
    all_goals simp_all

theorem c5_amended_vip_upgrade_rules_witness :
    ((check_vip_status c5customer).is_vip = true ↔
      (c5customer.is_vip = true ∨ 100 ≤ c5customer.total_spent ∨ 3 ≤ c5customer.order_count)) ∧
    (true = true ∧ OrderStatus.delivered = OrderStatus.delivered ∧
      (100 ≤ c5customer.total_spent ∨ 3 ≤ c5customer.order_count) ∧
      countUnresolvedComplaints [] = 0) :=
  ⟨(c5_amended_vip_upgrade_rules c5customer [] true .delivered).1,
   (c5_amended_vip_upgrade_rules c5customer [] true .delivered).2 rfl
     (by simp [update_customer_vip_status, countUnresolvedComplaints, c5customer])⟩

/-- C6 counterexample: a complaint created in status `resolved` against a
target customer with three warnings leaves that target customer wholly
unchanged — in particular not blacklisted — because the signal mutates the
complaint's complainant, not its target. -/
theorem c6_counterexample :
    c6target.warnings = 3 ∧
    (complaint_post_save true .resolved c6filer c6target).2.is_blacklisted = false ∧
    (complaint_post_save true .resolved c6filer c6target).2 = c6target :=
  ⟨rfl, rfl, rfl⟩

/-- C6 amended: when a complaint record is created already in status
`resolved`, the warning rules are applied to the filing customer (the
complainant), not to the complaint's target, which is never touched:
blacklist at `warnings >= 3`, checked first, otherwise VIP downgrade with
warnings reset at `warnings >= 2`. -/
theorem c6_amended_warning_rules (created : Bool) (st : ComplaintStatus)
    (filer target : Customer) (hc : created = true) (hst : st = .resolved) :
    (complaint_post_save created st filer target).2 = target ∧
    (3 ≤ filer.warnings →
      handle_customer_warnings created st filer = { filer with is_blacklisted := true }) ∧
    (filer.warnings < 3 → filer.is_vip = true → 2 ≤ filer.warnings →
      handle_customer_warnings created st filer =
        { filer with is_vip := false, warnings := 0 }) := by
  subst hc
  subst hst
  refine ⟨rfl, ?_, ?_⟩
  · intro h3
    unfold handle_customer_warnings
    simp [h3]
  · intro hlt hvip h2
    unfold handle_customer_warnings
    simp [show ¬ 3 ≤ filer.warnings from not_le.mpr hlt, hvip, h2]

theorem c6_amended_warning_rules_witness :
    (complaint_post_save true .resolved c6filer c6target).2 = c6target ∧
    handle_customer_warnings true .resolved c6target = { c6target with is_blacklisted := true } ∧
    handle_customer_warnings true .resolved c6vipFiler =
      { c6vipFiler with is_vip := false, warnings := 0 } :=
  ⟨(c6_amended_warning_rules true .resolved c6filer c6target rfl rfl).1,
   (c6_amended_warning_rules true .resolved c6target c6target rfl rfl).2.1 (by decide),
   (c6_amended_warning_rules true .resolved c6vipFiler c6target rfl rfl).2.2
     (by decide) (by decide) (by decide)⟩

/-- C7 counterexample: an active employee with one prior demotion who
reaches three net complaints is demoted to `demotion_count = 2` and
deactivated, but `is_terminated` stays `false`: the evaluation never writes
that field (only the manual admin fire action does). -/
theorem c7_counterexample :
    e7employee.demotion_count = 1 ∧
    evaluate_employee e7employee [.resolved, .resolved, .resolved] [] [5, 4] =
      { e7employee with demotion_count := 2, is_active := false } ∧
    (evaluate_employee e7employee [.resolved, .resolved, .resolved] [] [5, 4]).is_terminated
      = false := by
  refine ⟨rfl, ?_, ?_⟩
  · simp [evaluate_employee, countResolved, countApproved, avgRating, e7employee]
  · simp [evaluate_employee, countResolved, countApproved, avgRating, e7employee]

/-- C7 amended: whenever the demotion condition (net complaints at least 3,
or average rating below 2) holds, the evaluation increments
`demotion_count` by one and, if the incremented count reaches 2, sets
`is_active = false`; `is_terminated` is left exactly as it was. -/
theorem c7_amended_demotion (e : Employee) (complaints : List ComplaintStatus)
    (compliments : List ComplimentStatus) (ratings : List ℤ)
    (hcond : 3 ≤ max 0 (countResolved complaints - countApproved compliments) ∨
             avgRating ratings < 2) :
    (evaluate_employee e complaints compliments ratings).demotion_count =
      e.demotion_count + 1 ∧
    (2 ≤ e.demotion_count + 1 →
      (evaluate_employee e complaints compliments ratings).is_active = false) ∧
    (evaluate_employee e complaints compliments ratings).is_terminated = e.is_terminated := by
  unfold evaluate_employee
  simp only []
  rw [if_pos hcond]
  split
  · exact ⟨rfl, fun _ => rfl, rfl⟩
  · rename_i h2
    exact ⟨rfl, fun hge => absurd hge h2, rfl⟩

theorem c7_amended_demotion_witness :
    (evaluate_employee e7employee [.resolved, .resolved, .resolved] [] [5, 4]).demotion_count =
      e7employee.demotion_count + 1 ∧
    (2 ≤ e7employee.demotion_count + 1 →
      (evaluate_employee e7employee [.resolved, .resolved, .resolved] [] [5, 4]).is_active
        = false) ∧
    (evaluate_employee e7employee [.resolved, .resolved, .resolved] [] [5, 4]).is_terminated =
      e7employee.is_terminated :=
  c7_amended_demotion e7employee [.resolved, .resolved, .resolved] [] [5, 4]
    (Or.inl (by decide))

theorem bidKeyLE_refl (a : Bid) : bidKeyLE a a :=
  Or.inr ⟨rfl, le_refl _⟩

theorem bidKeyLE_trans (a b c : Bid) (h1 : bidKeyLE a b) (h2 : bidKeyLE b c) :
    bidKeyLE a c := by
  rcases h1 with h1 | ⟨he1, hc1⟩ <;> rcases h2 with h2 | ⟨he2, hc2⟩
  · exact Or.inl (lt_trans h1 h2)
  · exact Or.inl (he2 ▸ h1)
  · exact Or.inl (he1 ▸ h2)
  · exact Or.inr ⟨he1.trans he2, le_trans hc1 hc2⟩

theorem bidKeyLE_of_not_before (a b : Bid) (h : ¬ bidBefore a b) : bidKeyLE b a := by
  unfold bidBefore at h
  push_neg at h
  obtain ⟨h1, h2⟩ := h
  rcases lt_or_eq_of_le h1 with hlt | heq
  · exact Or.inl hlt
  · refine Or.inr ⟨heq, ?_⟩
    have := h2 heq.symm
    omega

theorem bidBefore_keyLE (a b : Bid) (h : bidBefore a b) : bidKeyLE a b := by
  rcases h with h1 | ⟨h1, h2⟩
  · exact Or.inl h1
  · exact Or.inr ⟨h1, le_of_lt h2⟩

theorem lowestBid_eq_none (l : List Bid) (h : lowestBid l = none) : l = [] := by
  cases l with
  | nil => rfl
  | cons b rest =>
      unfold lowestBid at h
      cases hr : lowestBid rest <;> rw [hr] at h <;> simp only [] at h
      · cases h
      · split at h <;> cases h

theorem lowestBid_mem (l : List Bid) (m : Bid) (h : lowestBid l = some m) : m ∈ l := by
  induction l generalizing m with
  | nil => cases h
  | cons b rest ih =>
      unfold lowestBid at h
      cases hr : lowestBid rest <;> rw [hr] at h <;> simp only [] at h
      · injection h with h
        subst h
        exact List.mem_cons_self _ _
      · split at h
        · injection h with h
          subst h
          exact List.mem_cons_of_mem _ (ih _ hr)
        · injection h with h
          subst h
          exact List.mem_cons_self _ _

theorem lowestBid_min (l : List Bid) (m : Bid) (h : lowestBid l = some m) :
    ∀ b ∈ l, bidKeyLE m b := by
  induction l generalizing m with
  | nil => cases h
  | cons x rest ih =>
      unfold lowestBid at h
      cases hr : lowestBid rest <;> rw [hr] at h <;> simp only [] at h
      · injection h with h
        subst h
        have hrest : rest = [] := lowestBid_eq_none _ hr
        subst hrest
        intro b hb
        rcases List.mem_singleton.mp hb with rfl
        exact bidKeyLE_refl _
      · split at h
        · rename_i hbef
          injection h with h
          subst h
          intro b hb
          rcases List.mem_cons.mp hb with rfl | hb2
          · exact bidBefore_keyLE _ _ hbef
          · exact ih _ hr b hb2
        · rename_i hbef
          injection h with h
          subst h
          intro b hb
          rcases List.mem_cons.mp hb with rfl | hb2
          · exact bidKeyLE_refl _
          · exact bidKeyLE_trans _ _ _ (bidKeyLE_of_not_before _ _ hbef) (ih _ hr b hb2)

theorem countP_markFirstSelected (w : Bid) (l : List Bid)
    (hw : w ∈ l) (hall : ∀ x ∈ l, x.is_selected = false) :
    (markFirstSelected w l).countP (fun b => b.is_selected) = 1 := by
  induction l with
  | nil => cases hw
  | cons b rest ih =>
      unfold markFirstSelected
      split
      · rename_i heq
        have hzero : rest.countP (fun b => b.is_selected) = 0 := by
          rw [List.countP_eq_zero]
          intro x hx
          simp [hall x (List.mem_cons_of_mem _ hx)]
        simp [List.countP_cons, hzero]
      · rename_i hne
        have hw' : w ∈ rest := by
          rcases List.mem_cons.mp hw with rfl | h2
          · exact absurd rfl hne
          · exact h2
        have hb := hall b (List.mem_cons_self _ _)
        simp [List.countP_cons, hb,
              ih hw' (fun x hx => hall x (List.mem_cons_of_mem _ hx))]

theorem selected_markFirstSelected (w : Bid) (l : List Bid)
    (hall : ∀ x ∈ l, x.is_selected = false) :
    ∀ s ∈ markFirstSelected w l, s.is_selected = true →
      s = { w with is_selected := true, justification := autoSelectJustification } := by
  induction l with
  | nil =>
      intro s hs
      cases hs
  | cons b rest ih =>
      intro s hs hsel
      unfold markFirstSelected at hs
      split at hs
      · rename_i heq
        rcases List.mem_cons.mp hs with rfl | h2
        · rw [heq]
        · exact absurd hsel (by simp [hall s (List.mem_cons_of_mem _ h2)])
      · rename_i hne
        rcases List.mem_cons.mp hs with rfl | h2
        · simp [hall s (List.mem_cons_self _ _)] at hsel
        · exact ih (fun x hx => hall x (List.mem_cons_of_mem _ hx)) s h2 hsel

/-- C8 counterexample: on bids `{12.00, 9.50 at t1, 9.50 at t2}` the action
does select the earlier 9.50 bid (courier 2) and deselects the previously
selected bid, but it never assigns `order.delivery_person`, which stays
`none` instead of becoming the winning courier. -/
theorem c8_counterexample :
    (auto_select_lowest_bid c8bids c8order).1 =
      [{ c8bid1 with is_selected := false },
       { c8bid2 with is_selected := true, justification := autoSelectJustification },
       c8bid3] ∧
    (auto_select_lowest_bid c8bids c8order).2 = c8order ∧
    c8order.delivery_person = none := by
  refine ⟨?_, ?_, rfl⟩
  · simp [auto_select_lowest_bid, lowestBid, markFirstSelected, bidBefore,
          c8bids, c8bid1, c8bid2, c8bid3, c8order, autoSelectJustification]
    norm_num
  · simp [auto_select_lowest_bid, lowestBid, markFirstSelected, bidBefore,
          c8bids, c8bid1, c8bid2, c8bid3, c8order, autoSelectJustification]
    norm_num

/-- C8 amended: on a non-empty bid set, the action leaves the Order row
unchanged (no courier assignment), leaves exactly one selected bid, and the
selected bid carries the system justification and has minimal amount with
earliest creation time among equal amounts. -/
theorem c8_amended_auto_select (bids : List Bid) (order : Order) (hne : bids ≠ []) :
    (auto_select_lowest_bid bids order).2 = order ∧
    (auto_select_lowest_bid bids order).1.countP (fun b => b.is_selected) = 1 ∧
    (∀ s ∈ (auto_select_lowest_bid bids order).1, s.is_selected = true →
      s.justification = autoSelectJustification ∧
      ∀ b ∈ bids, s.bid_amount < b.bid_amount ∨
        (s.bid_amount = b.bid_amount ∧ s.created_at ≤ b.created_at)) := by
  have hbe : bids.isEmpty = false := by
    cases bids with
    | nil => exact absurd rfl hne
    | cons b rest => rfl
  unfold auto_select_lowest_bid
  rw [hbe]
  simp only [Bool.false_eq_true, if_false]
  cases hlow : lowestBid (bids.map (fun b => { b with is_selected := false })) with
  | none =>
      have hnil := lowestBid_eq_none _ hlow
      rw [List.map_eq_nil_iff] at hnil
      exact absurd hnil hne
  | some w =>
      have hallf : ∀ x ∈ bids.map (fun b => { b with is_selected := false }),
          x.is_selected = false := by
        intro x hx
        rcases List.mem_map.mp hx with ⟨b, hb, rfl⟩
        rfl
      have hwmem := lowestBid_mem _ _ hlow
      have hwmin := lowestBid_min _ _ hlow
      refine ⟨rfl, countP_markFirstSelected w _ hwmem hallf, ?_⟩
      intro s hs hsel
      have hse := selected_markFirstSelected w _ hallf s hs hsel
      constructor
      · rw [hse]
      · intro b hb
        have hcb : ({ b with is_selected := false } : Bid) ∈
            bids.map (fun b => { b with is_selected := false }) :=
          List.mem_map_of_mem _ hb
        have hkey := hwmin _ hcb
        rw [hse]
        rcases hkey with h1 | ⟨h1, h2⟩
        · exact Or.inl h1
        · exact Or.inr ⟨h1, h2⟩

theorem c8_amended_auto_select_witness :
    (auto_select_lowest_bid c8bids c8order).2 = c8order ∧
    (auto_select_lowest_bid c8bids c8order).1.countP (fun b => b.is_selected) = 1 ∧
    (∀ s ∈ (auto_select_lowest_bid c8bids c8order).1, s.is_selected = true →
      s.justification = autoSelectJustification ∧
      ∀ b ∈ c8bids, s.bid_amount < b.bid_amount ∨
        (s.bid_amount = b.bid_amount ∧ s.created_at ≤ b.created_at)) :=
  c8_amended_auto_select c8bids c8order (by simp [c8bids])

theorem upsertBid_of_count_zero (courier : ℕ) (a : ℚ) (now : ℕ) (bids : List Bid)
    (h : bids.countP (fun b => b.delivery_person = courier) = 0) :
    upsertBid courier a now bids =
      bids ++ [{ delivery_person := courier, bid_amount := a, created_at := now,
                 is_selected := false, justification := "" }] := by
  induction bids with
  | nil => rfl
  | cons b rest ih =>
      rw [List.countP_cons] at h
      unfold upsertBid
      split
      · rename_i hdp
        simp [hdp] at h
      · rename_i hdp
        have hr : rest.countP (fun b => b.delivery_person = courier) = 0 := by
          simp [hdp] at h
          exact List.countP_eq_zero.mpr (by intro x hx; simpa using h x hx)
        rw [ih hr]
        simp

theorem upsertBid_count_one (courier : ℕ) (a : ℚ) (now : ℕ) (bids : List Bid)
    (h : bids.countP (fun b => b.delivery_person = courier) = 1) :
    (upsertBid courier a now bids).length = bids.length ∧
    (upsertBid courier a now bids).countP (fun b => b.delivery_person = courier) = 1 ∧
    ∀ b ∈ upsertBid courier a now bids, b.delivery_person = courier → b.bid_amount = a := by
  induction bids with
  | nil => simp [List.countP_nil] at h
  | cons b rest ih =>
      rw [List.countP_cons] at h
      unfold upsertBid
      split
      · rename_i hdp
        have hr : rest.countP (fun b => b.delivery_person = courier) = 0 := by
          simp [hdp] at h
          exact List.countP_eq_zero.mpr (by intro x hx; simpa using h x hx)
        refine ⟨by simp, ?_, ?_⟩
        · simp [List.countP_cons, hdp, hr]
        · intro x hx hxc
          rcases List.mem_cons.mp hx with rfl | hx2
          · rfl
          · have := List.countP_eq_zero.mp hr x hx2
            simp [hxc] at this
      · rename_i hdp
        have hr : rest.countP (fun b => b.delivery_person = courier) = 1 := by
          simp [hdp] at h
          exact h
        obtain ⟨ihl, ihc, iha⟩ := ih hr
        refine ⟨by simp [ihl], by simp [List.countP_cons, hdp, ihc], ?_⟩
        intro x hx hxc
        rcases List.mem_cons.mp hx with rfl | hx2
        · exact absurd hxc hdp
        · exact iha x hx2 hxc

/-- C9: placing a bid is an upsert keyed by the bidding courier: starting
from a bid table with no row for this courier, a first successful bid
creates exactly one row, and a second successful bid on the same order
leaves exactly one row for that courier, with the second amount and no
change in table size. -/
theorem c9_bid_upsert_idempotent (courier : ℕ) (a1 a2 : ℚ) (t1 t2 : ℕ) (bids : List Bid)
    (h0 : bids.countP (fun b => b.delivery_person = courier) = 0)
    (h1 : 0 < a1) (h2 : 0 < a2) :
    bid_on_delivery true courier .confirmed a1 t1 bids =
      some (upsertBid courier a1 t1 bids) ∧
    bid_on_delivery true courier .confirmed a2 t2 (upsertBid courier a1 t1 bids) =
      some (upsertBid courier a2 t2 (upsertBid courier a1 t1 bids)) ∧
    (upsertBid courier a1 t1 bids).countP (fun b => b.delivery_person = courier) = 1 ∧
    (upsertBid courier a2 t2 (upsertBid courier a1 t1 bids)).countP
      (fun b => b.delivery_person = courier) = 1 ∧
    (upsertBid courier a2 t2 (upsertBid courier a1 t1 bids)).length =
      (upsertBid courier a1 t1 bids).length ∧
    ∀ b ∈ upsertBid courier a2 t2 (upsertBid courier a1 t1 bids),
      b.delivery_person = courier → b.bid_amount = a2 := by
  have hc1 : (upsertBid courier a1 t1 bids).countP
      (fun b => b.delivery_person = courier) = 1 := by
    rw [upsertBid_of_count_zero courier a1 t1 bids h0]
    simp [List.countP_append, h0, List.countP_cons]
  obtain ⟨hl, hc, ha⟩ := upsertBid_count_one courier a2 t2 _ hc1
  refine ⟨?_, ?_, hc1, hc, hl, ha⟩
  · unfold bid_on_delivery
    rw [if_neg (not_le.mpr h1)]
    simp
  · unfold bid_on_delivery
    rw [if_neg (not_le.mpr h2)]
    simp

theorem c9_bid_upsert_idempotent_witness :
    bid_on_delivery true 7 .confirmed 12 3 [] = some (upsertBid 7 12 3 []) ∧
    bid_on_delivery true 7 .confirmed (19 / 2) 5 (upsertBid 7 12 3 []) =
      some (upsertBid 7 (19 / 2) 5 (upsertBid 7 12 3 [])) ∧
    (upsertBid 7 12 3 []).countP (fun b => b.delivery_person = 7) = 1 ∧
    (upsertBid 7 (19 / 2) 5 (upsertBid 7 12 3 [])).countP
      (fun b => b.delivery_person = 7) = 1 ∧
    (upsertBid 7 (19 / 2) 5 (upsertBid 7 12 3 [])).length = (upsertBid 7 12 3 []).length ∧
    ∀ b ∈ upsertBid 7 (19 / 2) 5 (upsertBid 7 12 3 []),
      b.delivery_person = 7 → b.bid_amount = 19 / 2 :=
  c9_bid_upsert_idempotent 7 12 (19 / 2) 3 5 [] rfl (by norm_num) (by norm_num)
